import Mathlib

/-!
# Verification of the fleet-supervision core

Shallow embedding of the two stateful services of the repository:

* `src/guardian-agent/main.py` — agent supervision, policy enforcement and
  the emergency-stop escalation state machine;
* `src/worker-health-monitor/main.py` — liveness probing, classification and
  the exponentially smoothed uptime estimator.

Conventions of the embedding:

* the Redis store becomes an explicit state value threaded through the
  operations; a Redis hash keyed by name becomes an association list
  `List (String × record)`, a Redis list becomes a Lean `List` (LPUSH is
  prepend, LTRIM 0 99 is `List.take 100`);
* wall-clock timestamps (`datetime.now()`, ISO strings) become an explicit
  `now : Int` parameter measured in seconds;
* Python floats become exact rationals `ℚ`; the two-decimal formatting used
  when serialising `uptime_percent` to Redis is not modelled;
* an HTTP request that raises becomes a `none` / `failure` constructor of the
  corresponding outcome type; interpolated human-readable message strings are
  abbreviated to fixed literals (no claim depends on their text).
-/

namespace BonzoAgents

/-! ## Association-list store primitives -/

/-- Lookup in an association list (model of reading a Redis key). -/
def getKey {α : Type} : List (String × α) → String → Option α
  | [], _ => none
  | (k, v) :: t, k2 => if k = k2 then some v else getKey t k2

/-- Insert-or-replace in an association list (model of writing a Redis key). -/
def setKey {α : Type} : List (String × α) → String → α → List (String × α)
  | [], k2, v2 => [(k2, v2)]
  | (k, v) :: t, k2, v2 =>
      if k = k2 then (k2, v2) :: t else (k, v) :: setKey t k2 v2

/-- Model of `LPUSH` followed by `LTRIM key 0 99`: prepend and keep the first 100
entries (`redis_client.lpush` + `redis_client.ltrim(key, 0, 99)` in both
`log_violation` and `check_worker_health`). -/
def capAppend {α : Type} (x : α) (xs : List α) : List α :=
  List.take 100 (x :: xs)

/-! ## Guardian agent: data model (src/guardian-agent/main.py) -/

/-- Status values the guardian writes for a supervised agent. -/
inductive AgentStatus where
  | unknown
  | healthy
  | suspicious
  | stopped
deriving DecidableEq, Repr

/-- Threat-level values the guardian writes. -/
inductive ThreatLevel where
  | low
  | medium
  | high
  | critical
deriving DecidableEq, Repr

/-- Violation severity (`warning` or `critical`). -/
inductive Severity where
  | warning
  | critical
deriving DecidableEq, Repr

/-- The hash stored at `guardian:agent:{name}` (fields written by
`hset(..., mapping={"status": ..., "last_check": ..., "threat_level": ...})`). -/
structure AgentRec where
  status : AgentStatus
  last_check : Int
  threat_level : ThreatLevel
deriving DecidableEq, Repr

/-- A policy violation record (the `PolicyViolation` pydantic model). -/
structure Violation where
  agent : String
  policy : String
  severity : Severity
  timestamp : Int
  details : String
  action_taken : String
deriving DecidableEq, Repr

/-- An entry of the module-level `AGENTS` registry. -/
structure AgentInfo where
  name : String
  url : String
  type : String
deriving DecidableEq, Repr

/-- The `AGENTS` registry of src/guardian-agent/main.py. -/
def AGENTS : List AgentInfo :=
  [⟨"deployment-coordinator", "http://deployment-coordinator:6001", "orchestration"⟩,
   ⟨"cost-optimizer", "http://cost-optimizer:6002", "analytics"⟩,
   ⟨"worker-health-monitor", "http://worker-health-monitor:6003", "monitoring"⟩]

/-- Policy constant `POLICIES["max_deployments_per_hour"]`. -/
def max_deployments_per_hour : Nat := 10

/-- Policy constant `POLICIES["max_cost_per_day"]`. -/
def max_cost_per_day : ℚ := 10.0

/-- Policy constant `POLICIES["max_failed_health_checks"]`. -/
def max_failed_health_checks : Int := 5

/-- Guardian state: the `guardian:agent:{name}` hashes and the
`guardian:violations:{name}` lists. -/
structure GStore where
  agents : List (String × AgentRec)
  violations : List (String × List Violation)
deriving DecidableEq, Repr

/-- The store before any write. -/
def gInit : GStore := ⟨[], []⟩

/-- What the network returned to one monitoring pass for one agent, passed
explicitly to the embedded operations: the `/health` probe (`none` when the
request raised), and the body of the category-specific metrics fetch
(`none` when that fetch raised or returned non-200). -/
structure AgentEnv where
  health_code : Option Int
  deployments : Option (List Int)
  total_cost : Option ℚ
  down_count : Option Int
deriving DecidableEq, Repr

/-! ## Guardian agent: operations -/

/-- Violations currently stored for one agent. -/
def violationsOf (s : GStore) (agent : String) : List Violation :=
  (getKey s.violations agent).getD []

/-- Model of `redis_client.hset(f"guardian:agent:{name}", mapping=...)`. -/
def hsetAgent (s : GStore) (name : String) (r : AgentRec) : GStore :=
  { s with agents := setKey s.agents name r }

/-- Embedding of `log_violation` (src/guardian-agent/main.py:398-413): build the record,
LPUSH it onto `guardian:violations:{agent}` and LTRIM to the last 100. -/
def log_violation (s : GStore) (agent policy : String) (sev : Severity)
    (details action : String) (now : Int) : GStore :=
  let v : Violation := ⟨agent, policy, sev, now, details, action⟩
  { s with violations := setKey s.violations agent (capAppend v (violationsOf s agent)) }

/-- Embedding of `flag_suspicious_behavior` (src/guardian-agent/main.py:381-395): write
status `suspicious` with threat level `high` (the alert send has no store
effect and is not modelled). -/
def flag_suspicious_behavior (s : GStore) (agent_name : String) (now : Int) : GStore :=
  hsetAgent s agent_name ⟨.suspicious, now, .high⟩

/-- Embedding of `check_deployment_policies` (src/guardian-agent/main.py:300-332): on a
successful fetch, count deployments with `started_at` strictly inside the
trailing hour; when the count exceeds the `max_deployments_per_hour` policy,
log a critical violation and flag the agent suspicious. A failed fetch is
swallowed (no store effect). -/
def check_deployment_policies (s : GStore) (agent_name : String)
    (deployments : Option (List Int)) (now : Int) : GStore :=
  match deployments with
  | none => s
  | some ds =>
      let recent := ds.filter (fun t => decide (now - 3600 < t))
      if recent.length > max_deployments_per_hour then
        let s1 := log_violation s agent_name "max_deployments_per_hour" .critical
          "Exceeded deployment limit" "Flagged as suspicious" now
        flag_suspicious_behavior s1 agent_name now
      else s

/-- Embedding of `check_cost_policies` (src/guardian-agent/main.py:335-355): on a
successful fetch, log a warning violation when the daily total exceeds the
`max_cost_per_day` policy; no suspicious flag. -/
def check_cost_policies (s : GStore) (agent_name : String)
    (total_cost : Option ℚ) (now : Int) : GStore :=
  match total_cost with
  | none => s
  | some c =>
      if c > max_cost_per_day then
        log_violation s agent_name "max_cost_per_day" .warning
          "Daily cost exceeds limit" "Alert sent" now
      else s

/-- Embedding of `check_monitoring_policies` (src/guardian-agent/main.py:358-378): on a
successful fetch, log a critical violation when the reported down-count
exceeds the `max_failed_health_checks` policy. -/
def check_monitoring_policies (s : GStore) (agent_name : String)
    (down_count : Option Int) (now : Int) : GStore :=
  match down_count with
  | none => s
  | some d =>
      if d > max_failed_health_checks then
        log_violation s agent_name "max_failed_health_checks" .critical
          "Workers down over limit" "Alert sent" now
      else s

/-- Embedding of `check_agent_behavior` (src/guardian-agent/main.py:262-297): probe
`/health`; on an exception or a non-200 status flag the agent suspicious and
return; otherwise run the category-specific policy check and then
unconditionally write status `healthy` / threat level `low`. -/
def check_agent_behavior (agent : AgentInfo) (env : AgentEnv)
    (s : GStore) (now : Int) : GStore :=
  match env.health_code with
  | none => flag_suspicious_behavior s agent.name now
  | some code =>
      if code ≠ 200 then flag_suspicious_behavior s agent.name now
      else
        let s1 :=
          if agent.type = "orchestration" then
            check_deployment_policies s agent.name env.deployments now
          else if agent.type = "analytics" then
            check_cost_policies s agent.name env.total_cost now
          else if agent.type = "monitoring" then
            check_monitoring_policies s agent.name env.down_count now
          else s
        hsetAgent s1 agent.name ⟨.healthy, now, .low⟩

/-- Result of `POST /stop/{agent_name}`. -/
inductive StopOutcome where
  | stopped_ok
  | forbidden403
  | notFound404
deriving DecidableEq, Repr

/-- Embedding of `emergency_stop_agent` (src/guardian-agent/main.py:210-252): reject with
403 when the feature flag is off, with 404 when the name is not in the
registry; otherwise write status `stopped` / threat level `critical` and log
an `emergency_stop` violation. Both rejections happen before any store
write. -/
def emergency_stop_agent (emergency_stop_enabled : Bool) (agents : List AgentInfo)
    (agent_name : String) (s : GStore) (now : Int) : StopOutcome × GStore :=
  if ¬ emergency_stop_enabled then (.forbidden403, s)
  else
    match agents.find? (fun a => decide (a.name = agent_name)) with
    | none => (.notFound404, s)
    | some _ =>
        let s1 := hsetAgent s agent_name ⟨.stopped, now, .critical⟩
        let s2 := log_violation s1 agent_name "emergency_stop" .critical
          "Agent manually stopped by Guardian" "Agent process terminated" now
        (.stopped_ok, s2)

/-- Guardian store states reachable within one process run: the empty store,
evolved by monitoring passes over registered agents
(`background_supervision` / `POST /monitor/all`, both of which call
`check_agent_behavior` per agent) and by `POST /stop/{name}` calls. -/
inductive Reach : GStore → Prop where
  | init : Reach gInit
  | stepCheck (agent : AgentInfo) (env : AgentEnv) (now : Int) {s : GStore} :
      agent ∈ AGENTS → Reach s → Reach (check_agent_behavior agent env s now)
  | stepStop (flag : Bool) (agent_name : String) (now : Int) {s : GStore} :
      Reach s → Reach (emergency_stop_agent flag AGENTS agent_name s now).2

/-! ## Worker health monitor: data model (src/worker-health-monitor/main.py) -/

/-- Status values the monitor writes for a worker. -/
inductive WStatus where
  | unknown
  | healthy
  | degraded
  | down
deriving DecidableEq, Repr

/-- An entry of the module-level `WORKERS` registry. -/
structure WorkerInfo where
  name : String
  url : String
  category : String
deriving DecidableEq, Repr

/-- The `WORKERS` registry of src/worker-health-monitor/main.py. -/
def WORKERS : List WorkerInfo :=
  [⟨"hub", "https://jimbo77.com/health", "web"⟩,
   ⟨"pumo-api", "https://jimbo-like-pumo-api.stolarnia-ams.workers.dev/health", "api"⟩,
   ⟨"zen-browser", "https://zen-bro-wser.org/health", "web"⟩,
   ⟨"blog", "https://my-bonzo-ai-blog.pages.dev/health", "web"⟩,
   ⟨"luc-de-zen-on", "https://luc-de-zen-on.pages.dev/health", "web"⟩,
   ⟨"agents-orchestrator", "https://orchestrator.jimbo77.com/health", "orchestration"⟩]

/-- The hash stored at `worker:status:{name}` (fields written by the two
`hset` calls of `check_worker_health`). -/
structure WorkerRec where
  status : WStatus
  response_time_ms : ℚ
  last_check : Int
  uptime_percent : ℚ
  error : String
deriving DecidableEq, Repr

/-- An entry of the `worker:history:{name}` list. -/
structure HistoryEntry where
  timestamp : Int
  status : WStatus
  response_time_ms : ℚ
  status_code : Int
deriving DecidableEq, Repr

/-- Monitor state: the `worker:status:{name}` hashes and the
`worker:history:{name}` lists. -/
structure WStore where
  status : List (String × WorkerRec)
  history : List (String × List HistoryEntry)
deriving DecidableEq, Repr

/-- The store before any write. -/
def wInit : WStore := ⟨[], []⟩

/-- What one probe of one worker returned: an HTTP response (status code and
measured latency in milliseconds) or a raised exception. -/
inductive ProbeOutcome where
  | response (status_code : Int) (response_time_ms : ℚ)
  | failure (error : String)
deriving DecidableEq, Repr

/-! ## Worker health monitor: operations -/

/-- The status determination of `check_worker_health`
(src/worker-health-monitor/main.py:236-241), applied to a response that did
not raise. -/
def classify_response (status_code : Int) (response_time_ms : ℚ) : WStatus :=
  if status_code = 200 ∧ response_time_ms < 1000 then .healthy
  else if status_code = 200 ∧ response_time_ms < 3000 then .degraded
  else .down

/-- The uptime exponential moving average of `check_worker_health`
(src/worker-health-monitor/main.py:253-254):
`new_uptime = prev_uptime * 0.95 + is_up * 5.0`. -/
def uptime_update (prev_uptime is_up : ℚ) : ℚ :=
  prev_uptime * 0.95 + is_up * 5.0

/-- Previous uptime as read by `check_worker_health`: the stored
`uptime_percent`, or the 100.0 seed for a never-checked worker
(src/worker-health-monitor/main.py:247-250 and 291-294). -/
def prev_uptime_of (s : WStore) (name : String) : ℚ :=
  match getKey s.status name with
  | some r => r.uptime_percent
  | none => 100.0

/-- History entries currently stored for one worker. -/
def historyOf (s : WStore) (name : String) : List HistoryEntry :=
  (getKey s.history name).getD []

/-- Embedding of `check_worker_health` (src/worker-health-monitor/main.py:223-309).
Response path: classify, update the uptime average with `is_up = 1.0` for
`healthy`/`degraded` and `0.0` otherwise, replace the status hash, prepend a
history entry and trim to 100; the down-alert and restart attempt have no
store effect and are not modelled. Exception path: write status `down` with
zero latency and `prev_uptime * 0.95`, recording the error; no history entry
is appended on this path. -/
def check_worker_health (worker : WorkerInfo) (outcome : ProbeOutcome)
    (s : WStore) (now : Int) : WStore :=
  match outcome with
  | .response status_code response_time_ms =>
      let status := classify_response status_code response_time_ms
      let prev_uptime := prev_uptime_of s worker.name
      let is_up : ℚ := if status = .healthy ∨ status = .degraded then 1.0 else 0.0
      let new_uptime := uptime_update prev_uptime is_up
      let rec1 : WorkerRec := ⟨status, response_time_ms, now, new_uptime, ""⟩
      let entry : HistoryEntry := ⟨now, status, response_time_ms, status_code⟩
      { status := setKey s.status worker.name rec1,
        history := setKey s.history worker.name (capAppend entry (historyOf s worker.name)) }
  | .failure err =>
      let prev_uptime := prev_uptime_of s worker.name
      let new_uptime := prev_uptime * 0.95
      { s with status := setKey s.status worker.name ⟨.down, 0, now, new_uptime, err⟩ }

/-- Monitor store states reachable within one process run: the empty store,
evolved by probes of registered workers (`background_monitoring` /
`POST /check/all`, both of which call `check_worker_health` per worker). -/
inductive WReach : WStore → Prop where
  | init : WReach wInit
  | step (worker : WorkerInfo) (outcome : ProbeOutcome) (now : Int) {s : WStore} :
      worker ∈ WORKERS → WReach s → WReach (check_worker_health worker outcome s now)

/-- Uptime sequence produced by a run of consecutive `down` classifications
starting from uptime `x`: each step applies the update of the code with
`is_up = 0`. -/
def uptime_after_downs (x : ℚ) : Nat → ℚ
  | 0 => x
  | n + 1 => uptime_update (uptime_after_downs x n) 0

/-- Uptime sequence produced by a run of consecutive `healthy`/`degraded`
classifications starting from uptime `x`: each step applies the update of
the code with `is_up = 1`. -/
def uptime_after_ups (x : ℚ) : Nat → ℚ
  | 0 => x
  | n + 1 => uptime_update (uptime_after_ups x n) 1

/-- The uptime accumulation of `GET /metrics`
(src/worker-health-monitor/main.py:174-192): iterate over the configured
workers, adding the stored `uptime_percent` of each worker that has a status
record and skipping workers without one. -/
def metrics_total_uptime (s : WStore) : List WorkerInfo → ℚ
  | [] => 0
  | w :: rest =>
      (match getKey s.status w.name with
       | some r => r.uptime_percent
       | none => 0) + metrics_total_uptime s rest

/-- The reported average uptime of `GET /metrics`
(src/worker-health-monitor/main.py:197): total divided by the number of
configured workers, or 100.0 for an empty worker list. -/
def metrics_avg_uptime (workers : List WorkerInfo) (s : WStore) : ℚ :=
  if workers.length > 0 then metrics_total_uptime s workers / workers.length else 100.0

/-- Spec-level reading of the same average: the sum of stored uptimes over
exactly the workers that have a status record, divided by the number of
configured workers. Used to compare `metrics_avg_uptime` against the claim. -/
def recorded_uptime_sum (workers : List WorkerInfo) (s : WStore) : ℚ :=
  ((workers.filterMap (fun w => getKey s.status w.name)).map WorkerRec.uptime_percent).sum

/-! ## Concrete scenario states -/

/-- Registry entry of the orchestration agent, as listed in `AGENTS`. -/
def dcAgent : AgentInfo :=
  ⟨"deployment-coordinator", "http://deployment-coordinator:6001", "orchestration"⟩

/-- Environment of a fully successful monitoring pass: `/health` returned 200
and the recent-deployments list is empty. -/
def env_ok : AgentEnv := ⟨some 200, some [], none, none⟩

/-- Environment of a monitoring pass whose `/health` request raised. -/
def env_fail : AgentEnv := ⟨none, none, none, none⟩

/-- Environment of a monitoring pass at `now = 7200` in which `/health`
returned 200 and the agent reported 11 deployments all started at
timestamp 7000, i.e. inside the trailing hour. -/
def env_burst : AgentEnv := ⟨some 200, some (List.replicate 11 7000), none, none⟩

/-- Guardian store after `POST /stop/deployment-coordinator` on a fresh run
with the emergency-stop feature enabled. -/
def s_stop : GStore :=
  (emergency_stop_agent true AGENTS "deployment-coordinator" gInit 0).2

/-- Guardian store after the next supervision pass reaches the stopped agent
and its `/health` probe returns 200. -/
def s_after : GStore := check_agent_behavior dcAgent env_ok s_stop 100

/-- Guardian store after a supervision pass in which the `/health` request of
the agent raised. -/
def s_susp : GStore := check_agent_behavior dcAgent env_fail gInit 0

/-- Guardian store after a supervision pass over `env_burst`. -/
def s_burst : GStore := check_agent_behavior dcAgent env_burst gInit 7200

/-- Registry entry of the first monitored worker, as listed in `WORKERS`. -/
def hubWorker : WorkerInfo := ⟨"hub", "https://jimbo77.com/health", "web"⟩

/-- Monitor store after probing the fresh `hub` worker at 250 ms / HTTP 200. -/
def s_probe1 : WStore := check_worker_health hubWorker (.response 200 250) wInit 0

/-- Monitor store after the next probe of `hub` times out. -/
def s_probe2 : WStore := check_worker_health hubWorker (.failure "timeout") s_probe1 300

/-- Monitor store after a further probe of `hub` at 500 ms / HTTP 200. -/
def s_probe3 : WStore := check_worker_health hubWorker (.response 200 500) s_probe2 600

/-! ## Store primitive lemmas -/

theorem getKey_setKey {α : Type} (l : List (String × α)) (k q : String) (v : α) :
    getKey (setKey l k v) q = if k = q then some v else getKey l q := by
  induction l with
  | nil => simp [getKey, setKey]
  | cons hd t ih =>
      obtain ⟨k2, v2⟩ := hd
      by_cases h : k2 = k
      · subst h
        by_cases h2 : k2 = q <;> simp [getKey, setKey, h2]
      · by_cases h2 : k2 = q
        · subst h2
          have hk : ¬ k = k2 := fun hkq => h hkq.symm
          simp [getKey, setKey, h, hk]
        · simp [getKey, setKey, h, h2, ih]

theorem capAppend_eq_cons {α : Type} (x : α) (xs : List α) :
    capAppend x xs = x :: xs.take 99 := rfl

theorem length_capAppend {α : Type} (x : α) (xs : List α) :
    (capAppend x xs).length ≤ 100 := by
  simp [capAppend, List.length_take]

theorem mem_capAppend_self {α : Type} (x : α) (xs : List α) :
    x ∈ capAppend x xs := by
  rw [capAppend_eq_cons]
  exact List.mem_cons_self x _

theorem capAppend_evicts_oldest {α : Type} (x : α) (xs : List α)
    (h : xs.length = 100) : capAppend x xs = x :: xs.dropLast := by
  rw [capAppend_eq_cons, List.dropLast_eq_take, h]

/-! ## Guardian agent lemmas -/

theorem agents_log_violation (s : GStore) (a p : String) (sev : Severity)
    (d act : String) (now : Int) :
    (log_violation s a p sev d act now).agents = s.agents := rfl

theorem violationsOf_log_violation (s : GStore) (a p : String) (sev : Severity)
    (d act : String) (now : Int) (q : String) :
    violationsOf (log_violation s a p sev d act now) q =
      if a = q then capAppend ⟨a, p, sev, now, d, act⟩ (violationsOf s a)
      else violationsOf s q := by
  by_cases h : a = q <;> simp [log_violation, violationsOf, getKey_setKey, h]

theorem agents_check_cost_policies (s : GStore) (n : String) (c : Option ℚ) (now : Int) :
    (check_cost_policies s n c now).agents = s.agents := by
  cases c with
  | none => rfl
  | some v =>
      simp only [check_cost_policies]
      split <;> rfl

theorem agents_check_monitoring_policies (s : GStore) (n : String) (d : Option Int)
    (now : Int) :
    (check_monitoring_policies s n d now).agents = s.agents := by
  cases d with
  | none => rfl
  | some v =>
      simp only [check_monitoring_policies]
      split <;> rfl

theorem getKey_agents_check_deployment_policies (s : GStore) (n : String)
    (d : Option (List Int)) (now : Int) (q : String) (h : ¬ n = q) :
    getKey (check_deployment_policies s n d now).agents q = getKey s.agents q := by
  cases d with
  | none => rfl
  | some ds =>
      simp only [check_deployment_policies]
      split
      · simp [flag_suspicious_behavior, hsetAgent, agents_log_violation, getKey_setKey, h]
      · rfl

theorem violationsOf_check_deployment_policies (s : GStore) (n : String)
    (d : Option (List Int)) (now : Int) (q : String) (h : ¬ n = q) :
    violationsOf (check_deployment_policies s n d now) q = violationsOf s q := by
  cases d with
  | none => rfl
  | some ds =>
      simp only [check_deployment_policies]
      split
      · simp [flag_suspicious_behavior, hsetAgent, violationsOf, log_violation,
          getKey_setKey, h]
      · rfl

theorem violationsOf_check_cost_policies (s : GStore) (n : String) (c : Option ℚ)
    (now : Int) (q : String) (h : ¬ n = q) :
    violationsOf (check_cost_policies s n c now) q = violationsOf s q := by
  cases c with
  | none => rfl
  | some v =>
      simp only [check_cost_policies]
      split
      · simp [violationsOf, log_violation, getKey_setKey, h]
      · rfl

theorem violationsOf_check_monitoring_policies (s : GStore) (n : String)
    (d : Option Int) (now : Int) (q : String) (h : ¬ n = q) :
    violationsOf (check_monitoring_policies s n d now) q = violationsOf s q := by
  cases d with
  | none => rfl
  | some v =>
      simp only [check_monitoring_policies]
      split
      · simp [violationsOf, log_violation, getKey_setKey, h]
      · rfl

theorem agents_hsetAgent (s : GStore) (n : String) (r : AgentRec) :
    (hsetAgent s n r).agents = setKey s.agents n r := rfl

theorem violationsOf_hsetAgent (s : GStore) (n : String) (r : AgentRec) (q : String) :
    violationsOf (hsetAgent s n r) q = violationsOf s q := rfl

/-- Net effect of one monitoring pass on the status record of the checked agent:
when the `/health` probe returned 200 the final write is `healthy`/`low`
(regardless of any violation flagged in between), otherwise it is
`suspicious`/`high`; records of other agents are untouched. -/
theorem getKey_agents_check_agent_behavior (a : AgentInfo) (env : AgentEnv)
    (s : GStore) (now : Int) (q : String) :
    getKey (check_agent_behavior a env s now).agents q =
      if a.name = q then
        some (if env.health_code = some 200 then ⟨.healthy, now, .low⟩
              else ⟨.suspicious, now, .high⟩)
      else getKey s.agents q := by
  cases henv : env.health_code with
  | none =>
      simp [check_agent_behavior, henv, flag_suspicious_behavior, agents_hsetAgent,
        getKey_setKey]
  | some code =>
      by_cases hc : code = 200
      · subst hc
        simp only [check_agent_behavior, henv]
        rw [if_neg (by simp : ¬ ((200 : Int) ≠ 200))]
        rw [agents_hsetAgent, getKey_setKey]
        by_cases hq : a.name = q
        · simp [hq]
        · rw [if_neg hq, if_neg hq]
          split
          · exact getKey_agents_check_deployment_policies s a.name env.deployments now q hq
          · split
            · rw [agents_check_cost_policies]
            · split
              · rw [agents_check_monitoring_policies]
              · rfl
      · simp [check_agent_behavior, henv, hc, flag_suspicious_behavior, agents_hsetAgent,
          getKey_setKey]

/-- One monitoring pass never touches the violation list of another agent. -/
theorem violationsOf_check_agent_behavior (a : AgentInfo) (env : AgentEnv)
    (s : GStore) (now : Int) (q : String) (h : ¬ a.name = q) :
    violationsOf (check_agent_behavior a env s now) q = violationsOf s q := by
  cases henv : env.health_code with
  | none =>
      simp [check_agent_behavior, henv, flag_suspicious_behavior, violationsOf_hsetAgent]
  | some code =>
      by_cases hc : code = 200
      · subst hc
        simp only [check_agent_behavior, henv]
        rw [if_neg (by simp : ¬ ((200 : Int) ≠ 200))]
        rw [violationsOf_hsetAgent]
        split
        · exact violationsOf_check_deployment_policies s a.name env.deployments now q h
        · split
          · exact violationsOf_check_cost_policies s a.name env.total_cost now q h
          · split
            · exact violationsOf_check_monitoring_policies s a.name env.down_count now q h
            · rfl
      · simp [check_agent_behavior, henv, hc, flag_suspicious_behavior,
          violationsOf_hsetAgent]

theorem emergency_stop_disabled (agents : List AgentInfo) (n : String)
    (s : GStore) (now : Int) :
    emergency_stop_agent false agents n s now = (.forbidden403, s) := rfl

theorem emergency_stop_not_found (agents : List AgentInfo) (n : String)
    (s : GStore) (now : Int)
    (h : agents.find? (fun a => decide (a.name = n)) = none) :
    emergency_stop_agent true agents n s now = (.notFound404, s) := by
  simp [emergency_stop_agent, h]

theorem emergency_stop_found (agents : List AgentInfo) (n : String)
    (s : GStore) (now : Int) (a0 : AgentInfo)
    (h : agents.find? (fun a => decide (a.name = n)) = some a0) :
    emergency_stop_agent true agents n s now =
      (.stopped_ok,
       log_violation (hsetAgent s n ⟨.stopped, now, .critical⟩) n "emergency_stop"
         .critical "Agent manually stopped by Guardian" "Agent process terminated" now) := by
  simp [emergency_stop_agent, h]

/-- Invariant over all guardian states reachable in one process run: every
stored agent record carries one of the three (status, threat level) pairs the
code ever writes — `(healthy, low)`, `(suspicious, high)` or
`(stopped, critical)` — and a record in status `stopped` always has an
`emergency_stop` violation on its violation list. -/
theorem reach_invariant {s : GStore} (h : Reach s) :
    ∀ name r, getKey s.agents name = some r →
      (((r.status = .healthy ∧ r.threat_level = .low) ∨
        (r.status = .suspicious ∧ r.threat_level = .high) ∨
        (r.status = .stopped ∧ r.threat_level = .critical)) ∧
       (r.status = .stopped →
         ∃ v ∈ violationsOf s name, v.policy = "emergency_stop")) := by
  induction h with
  | init =>
      intro name r hr
      simp [gInit, getKey] at hr
  | stepCheck a env now mem hs ih =>
      intro name r hr
      rw [getKey_agents_check_agent_behavior] at hr
      by_cases hq : a.name = name
      · rw [if_pos hq] at hr
        by_cases he : env.health_code = some 200
        · rw [if_pos he] at hr
          have hrec := Option.some.inj hr
          subst hrec
          exact ⟨Or.inl ⟨rfl, rfl⟩, fun hst => absurd hst (by simp)⟩
        · rw [if_neg he] at hr
          have hrec := Option.some.inj hr
          subst hrec
          exact ⟨Or.inr (Or.inl ⟨rfl, rfl⟩), fun hst => absurd hst (by simp)⟩
      · rw [if_neg hq] at hr
        obtain ⟨hok, hstop⟩ := ih name r hr
        refine ⟨hok, fun hst => ?_⟩
        rw [violationsOf_check_agent_behavior a env _ now name hq]
        exact hstop hst
  | stepStop flag n now hs ih =>
      rename_i s2
      cases flag with
      | false =>
          rw [show (emergency_stop_agent false AGENTS n s2 now).2 = s2 from rfl]
          exact ih
      | true =>
          cases hf : AGENTS.find? (fun a => decide (a.name = n)) with
          | none =>
              rw [show (emergency_stop_agent true AGENTS n s2 now).2 = s2 from by
                rw [emergency_stop_not_found AGENTS n s2 now hf]]
              exact ih
          | some a0 =>
              have hsnd : (emergency_stop_agent true AGENTS n s2 now).2 =
                  log_violation (hsetAgent s2 n ⟨.stopped, now, .critical⟩) n
                    "emergency_stop" .critical "Agent manually stopped by Guardian"
                    "Agent process terminated" now := by
                rw [emergency_stop_found AGENTS n s2 now a0 hf]
              intro name r hr
              rw [hsnd] at hr ⊢
              rw [agents_log_violation, agents_hsetAgent, getKey_setKey] at hr
              by_cases hq : n = name
              · rw [if_pos hq] at hr
                have hrec := Option.some.inj hr
                subst hrec
                refine ⟨Or.inr (Or.inr ⟨rfl, rfl⟩), fun _ => ?_⟩
                rw [violationsOf_log_violation, if_pos hq]
                refine ⟨_, mem_capAppend_self _ _, rfl⟩
              · rw [if_neg hq] at hr
                obtain ⟨hok, hstop⟩ := ih name r hr
                refine ⟨hok, fun hst => ?_⟩
                rw [violationsOf_log_violation, if_neg hq, violationsOf_hsetAgent]
                exact hstop hst

/-! ## Worker health monitor lemmas -/

theorem rat_095_eq : (0.95 : ℚ) = 19 / 20 := by norm_num

theorem getKey_status_check_response (w : WorkerInfo) (code : Int) (rt : ℚ)
    (s : WStore) (now : Int) (q : String) :
    getKey (check_worker_health w (.response code rt) s now).status q =
      if w.name = q then
        some ⟨classify_response code rt, rt, now,
          uptime_update (prev_uptime_of s w.name)
            (if classify_response code rt = .healthy ∨
                classify_response code rt = .degraded then 1.0 else 0.0), ""⟩
      else getKey s.status q := by
  simp [check_worker_health, getKey_setKey]

theorem getKey_status_check_failure (w : WorkerInfo) (err : String)
    (s : WStore) (now : Int) (q : String) :
    getKey (check_worker_health w (.failure err) s now).status q =
      if w.name = q then some ⟨.down, 0, now, prev_uptime_of s w.name * 0.95, err⟩
      else getKey s.status q := by
  simp [check_worker_health, getKey_setKey]

theorem historyOf_check_response (w : WorkerInfo) (code : Int) (rt : ℚ)
    (s : WStore) (now : Int) :
    historyOf (check_worker_health w (.response code rt) s now) w.name =
      capAppend ⟨now, classify_response code rt, rt, code⟩ (historyOf s w.name) := by
  simp [check_worker_health, historyOf, getKey_setKey]

theorem uptime_update_mem_Icc (p u : ℚ) (hp0 : 0 ≤ p) (hp1 : p ≤ 100)
    (hu : u = 0 ∨ u = 1) : 0 ≤ uptime_update p u ∧ uptime_update p u ≤ 100 := by
  rcases hu with h | h <;> subst h <;>
    rw [uptime_update, rat_095_eq] <;> constructor <;> nlinarith

theorem decay_mem_Icc (p : ℚ) (hp0 : 0 ≤ p) (hp1 : p ≤ 100) :
    0 ≤ p * 0.95 ∧ p * 0.95 ≤ 100 := by
  rw [rat_095_eq]
  constructor <;> nlinarith

/-- Invariant over all monitor states reachable in one process run: every
stored worker record has `uptime_percent` within `[0, 100]`. -/
theorem wreach_uptime_bounds {s : WStore} (h : WReach s) :
    ∀ name r, getKey s.status name = some r →
      0 ≤ r.uptime_percent ∧ r.uptime_percent ≤ 100 := by
  induction h with
  | init =>
      intro name r hr
      simp [wInit, getKey] at hr
  | step w o now mem hs ih =>
      rename_i s2
      have hprev : 0 ≤ prev_uptime_of s2 w.name ∧ prev_uptime_of s2 w.name ≤ 100 := by
        unfold prev_uptime_of
        cases hp : getKey s2.status w.name with
        | none => norm_num
        | some r0 => exact ih w.name r0 hp
      intro name r hr
      cases o with
      | response code rt =>
          rw [getKey_status_check_response] at hr
          by_cases hq : w.name = name
          · rw [if_pos hq] at hr
            have hrec := Option.some.inj hr
            subst hrec
            exact uptime_update_mem_Icc _ _ hprev.1 hprev.2 (by split <;> norm_num)
          · rw [if_neg hq] at hr
            exact ih name r hr
      | failure err =>
          rw [getKey_status_check_failure] at hr
          by_cases hq : w.name = name
          · rw [if_pos hq] at hr
            have hrec := Option.some.inj hr
            subst hrec
            exact decay_mem_Icc _ hprev.1 hprev.2
          · rw [if_neg hq] at hr
            exact ih name r hr

theorem uptime_after_downs_closed (x : ℚ) (n : Nat) :
    uptime_after_downs x n = (19 / 20 : ℚ) ^ n * x := by
  induction n with
  | zero => simp [uptime_after_downs]
  | succ n ih =>
      rw [uptime_after_downs, ih, uptime_update, rat_095_eq, pow_succ]
      ring

theorem uptime_after_ups_closed (x : ℚ) (n : Nat) :
    100 - uptime_after_ups x n = (19 / 20 : ℚ) ^ n * (100 - x) := by
  induction n with
  | zero => simp [uptime_after_ups]
  | succ n ih =>
      rw [uptime_after_ups, uptime_update, rat_095_eq, pow_succ]
      nlinarith [ih]

theorem metrics_total_eq_recorded_sum (workers : List WorkerInfo) (s : WStore) :
    metrics_total_uptime s workers = recorded_uptime_sum workers s := by
  induction workers with
  | nil => simp [metrics_total_uptime, recorded_uptime_sum]
  | cons w rest ih =>
      cases hw : getKey s.status w.name with
      | none =>
          simp [metrics_total_uptime, recorded_uptime_sum, List.filterMap_cons, hw, ih]
      | some r =>
          simp [metrics_total_uptime, recorded_uptime_sum, List.filterMap_cons, hw, ih]

theorem prev_uptime_eq_of_getKey (s : WStore) (n : String) (r : WorkerRec)
    (h : getKey s.status n = some r) : prev_uptime_of s n = r.uptime_percent := by
  unfold prev_uptime_of
  rw [h]

theorem metrics_total_of_unchecked (s : WStore) (workers : List WorkerInfo)
    (h : ∀ w ∈ workers, getKey s.status w.name = none) :
    metrics_total_uptime s workers = 0 := by
  induction workers with
  | nil => rfl
  | cons w rest ih =>
      have h1 := h w (List.mem_cons_self w rest)
      have h2 := ih fun w2 hw2 => h w2 (List.mem_cons_of_mem w hw2)
      simp [metrics_total_uptime, h1, h2]

/-! ## Claim theorems -/

/-- C1, counterexample: the claim that a stored `stopped` status is never
overwritten by an automatic step fails on the code. After an emergency stop
the agent is `stopped`, yet the next monitoring pass whose `/health` probe
returns 200 overwrites the status with `healthy`. -/
theorem C1_counterexample_stopped_overwritten :
    (getKey s_stop.agents "deployment-coordinator").map AgentRec.status =
      some AgentStatus.stopped ∧
    (getKey s_after.agents "deployment-coordinator").map AgentRec.status =
      some AgentStatus.healthy := by
  constructor <;> decide

/-- C1, amended: status `stopped` is written only by the explicit stop
operation, always together with a logged `emergency_stop` violation — in any
reachable state a stopped agent has such a violation on its list — but it is
not terminal within the process run: every automatic monitoring pass that
reaches an agent overwrites its status, with `healthy` when the `/health`
probe returns 200 and with `suspicious` otherwise, regardless of the
previously stored status. -/
theorem C1_amended_stop_not_terminal :
    (∀ (a : AgentInfo) (env : AgentEnv) (s : GStore) (now : Int),
      getKey (check_agent_behavior a env s now).agents a.name =
        some (if env.health_code = some 200 then ⟨.healthy, now, .low⟩
              else ⟨.suspicious, now, .high⟩)) ∧
    (∀ s : GStore, Reach s → ∀ name r, getKey s.agents name = some r →
      r.status = .stopped →
        ∃ v ∈ violationsOf s name, v.policy = "emergency_stop") := by
  constructor
  · intro a env s now
    rw [getKey_agents_check_agent_behavior, if_pos rfl]
  · intro s hs name r hr hst
    exact (reach_invariant hs name r hr).2 hst

/-- C1, witness: the amended theorem applied to the stopped
deployment-coordinator and a subsequent successful monitoring pass. -/
theorem C1_amended_stop_not_terminal_witness :
    getKey (check_agent_behavior dcAgent env_ok s_stop 100).agents
      "deployment-coordinator" = some ⟨.healthy, 100, .low⟩ ∧
    ∃ v ∈ violationsOf s_stop "deployment-coordinator",
      v.policy = "emergency_stop" := by
  constructor
  · have h := C1_amended_stop_not_terminal.1 dcAgent env_ok s_stop 100
    simpa [env_ok, dcAgent] using h
  · exact C1_amended_stop_not_terminal.2 s_stop
      (Reach.stepStop true "deployment-coordinator" 0 Reach.init)
      "deployment-coordinator" ⟨.stopped, 0, .critical⟩ (by decide) rfl

/-- C2, counterexample: the claim that status `suspicious` is always written
with threat level `critical` fails on the code. A reachable state — one
supervision pass in which the `/health` request of the agent raised — stores the
agent as `suspicious` with threat level `high`. -/
theorem C2_counterexample_suspicious_high :
    Reach s_susp ∧
    getKey s_susp.agents "deployment-coordinator" =
      some ⟨.suspicious, 0, .high⟩ ∧
    ThreatLevel.high ≠ ThreatLevel.critical := by
  refine ⟨Reach.stepCheck dcAgent env_fail 0 (by decide) Reach.init, by decide, by decide⟩

/-- C2, amended: in every reachable store state, threat level `critical` is
carried exactly by status `stopped`; status `suspicious` is always stored
with threat level `high` and status `healthy` with `low`. -/
theorem C2_amended_threat_level_invariant :
    ∀ s : GStore, Reach s → ∀ name r, getKey s.agents name = some r →
      (r.threat_level = .critical ↔ r.status = .stopped) ∧
      (r.status = .suspicious → r.threat_level = .high) ∧
      (r.status = .healthy → r.threat_level = .low) := by
  intro s hs name r hr
  obtain ⟨hok, _⟩ := reach_invariant hs name r hr
  rcases hok with ⟨h1, h2⟩ | ⟨h1, h2⟩ | ⟨h1, h2⟩ <;>
    refine ⟨?_, ?_, ?_⟩ <;> simp [h1, h2]

/-- C2, witness: the amended invariant applied to the store reached by one
emergency stop, at the record of the stopped agent. -/
theorem C2_amended_threat_level_invariant_witness :
    (ThreatLevel.critical = .critical ↔ AgentStatus.stopped = .stopped) ∧
    (AgentStatus.stopped = .suspicious → ThreatLevel.critical = .high) ∧
    (AgentStatus.stopped = .healthy → ThreatLevel.critical = .low) :=
  C2_amended_threat_level_invariant s_stop
    (Reach.stepStop true "deployment-coordinator" 0 Reach.init)
    "deployment-coordinator" ⟨.stopped, 0, .critical⟩ (by decide)

/-- C3, code bug: for the orchestration agent whose probe succeeds and whose
deployments list has 11 entries inside the trailing hour, the pass records
exactly one `max_deployments_per_hour` violation with severity `critical` —
but the stored status at the end of the pass is `healthy`, not `suspicious`:
the unconditional healthy write at the end of `check_agent_behavior`
overwrites the suspicious flag, contradicting the own comment of the code
"Mark as healthy if no violations". -/
theorem C3_healthy_overwrites_suspicious_flag :
    (violationsOf s_burst "deployment-coordinator").map
        (fun v => (v.policy, v.severity)) =
      [("max_deployments_per_hour", Severity.critical)] ∧
    (getKey s_burst.agents "deployment-coordinator").map AgentRec.status =
      some AgentStatus.healthy := by
  constructor <;> decide

/-- C4: the stored classification of every probe outcome follows the ordered
rule of `check_worker_health`: an exception gives `down`; otherwise status
code 200 with latency under 1000 ms gives `healthy`, 200 with latency under
3000 ms gives `degraded`, and anything else gives `down`. -/
theorem C4_classification :
    ∀ (w : WorkerInfo) (s : WStore) (now : Int) (err : String) (code : Int) (rt : ℚ),
      (getKey (check_worker_health w (.failure err) s now).status w.name).map
          WorkerRec.status = some WStatus.down ∧
      (code = 200 → rt < 1000 →
        (getKey (check_worker_health w (.response code rt) s now).status w.name).map
          WorkerRec.status = some WStatus.healthy) ∧
      (code = 200 → 1000 ≤ rt → rt < 3000 →
        (getKey (check_worker_health w (.response code rt) s now).status w.name).map
          WorkerRec.status = some WStatus.degraded) ∧
      (code ≠ 200 ∨ 3000 ≤ rt →
        (getKey (check_worker_health w (.response code rt) s now).status w.name).map
          WorkerRec.status = some WStatus.down) := by
  intro w s now err code rt
  refine ⟨?_, ?_, ?_, ?_⟩
  · rw [getKey_status_check_failure, if_pos rfl]
    rfl
  · intro h1 h2
    subst h1
    rw [getKey_status_check_response, if_pos rfl]
    simp [classify_response, h2]
  · intro h1 h2 h3
    subst h1
    rw [getKey_status_check_response, if_pos rfl]
    simp [classify_response, not_lt.mpr h2, h3]
  · intro h
    rw [getKey_status_check_response, if_pos rfl]
    rcases h with h | h
    · simp [classify_response, h]
    · have h1 : ¬ rt < 1000 := not_lt.mpr (by linarith)
      have h2 : ¬ rt < 3000 := not_lt.mpr h
      simp [classify_response, h1, h2]

/-- C4, witness: the classification theorem applied to a raised probe, a
250 ms / 200 response, a 1500 ms / 200 response and a 250 ms / 500 response
of the `hub` worker. -/
theorem C4_classification_witness :
    (getKey (check_worker_health hubWorker (.failure "boom") wInit 0).status "hub").map
      WorkerRec.status = some WStatus.down ∧
    (getKey (check_worker_health hubWorker (.response 200 250) wInit 0).status "hub").map
      WorkerRec.status = some WStatus.healthy ∧
    (getKey (check_worker_health hubWorker (.response 200 1500) wInit 0).status "hub").map
      WorkerRec.status = some WStatus.degraded ∧
    (getKey (check_worker_health hubWorker (.response 500 250) wInit 0).status "hub").map
      WorkerRec.status = some WStatus.down := by
  refine ⟨?_, ?_, ?_, ?_⟩
  · exact (C4_classification hubWorker wInit 0 "boom" 200 250).1
  · exact (C4_classification hubWorker wInit 0 "boom" 200 250).2.1 rfl (by norm_num)
  · exact (C4_classification hubWorker wInit 0 "boom" 200 1500).2.2.1 rfl
      (by norm_num) (by norm_num)
  · exact (C4_classification hubWorker wInit 0 "boom" 500 250).2.2.2
      (Or.inl (by norm_num))

/-- C5: the stored uptime after a probe is `prev * 0.95 + 5.0` when the
classification is `healthy` or `degraded` and `prev * 0.95` otherwise
(including the exception path), with `prev = 100.0` for a never-checked
target; from the seed, the run healthy (250 ms / 200), timeout,
healthy (500 ms / 200) yields uptimes 100, 95, 95.25. -/
theorem C5_uptime_update_rule :
    (∀ (w : WorkerInfo) (s : WStore) (now : Int) (code : Int) (rt : ℚ),
      (getKey (check_worker_health w (.response code rt) s now).status w.name).map
          WorkerRec.uptime_percent =
        some (if classify_response code rt = .healthy ∨
                 classify_response code rt = .degraded
              then prev_uptime_of s w.name * 0.95 + 5.0
              else prev_uptime_of s w.name * 0.95)) ∧
    (∀ (w : WorkerInfo) (s : WStore) (now : Int) (err : String),
      (getKey (check_worker_health w (.failure err) s now).status w.name).map
          WorkerRec.uptime_percent = some (prev_uptime_of s w.name * 0.95)) ∧
    (∀ (s : WStore) (name : String), getKey s.status name = none →
      prev_uptime_of s name = 100.0) ∧
    (prev_uptime_of s_probe1 "hub" = 100 ∧ prev_uptime_of s_probe2 "hub" = 95 ∧
      prev_uptime_of s_probe3 "hub" = 95.25) := by
  refine ⟨?_, ?_, ?_, ?_⟩
  · intro w s now code rt
    rw [getKey_status_check_response, if_pos rfl]
    simp only [Option.map_some']
    congr 1
    split
    · rw [uptime_update]
      norm_num
    · rw [uptime_update]
      norm_num
  · intro w s now err
    rw [getKey_status_check_failure, if_pos rfl]
    rfl
  · intro s name h
    unfold prev_uptime_of
    rw [h]
  · have e1 : prev_uptime_of s_probe1 "hub" = 100 := by
      simp only [s_probe1]
      rw [prev_uptime_eq_of_getKey _ _ _
        (by rw [getKey_status_check_response,
                if_pos (show hubWorker.name = ("hub" : String) from rfl)])]
      norm_num [uptime_update, classify_response, prev_uptime_of, wInit, getKey]
    have e1h : prev_uptime_of s_probe1 hubWorker.name = 100 := e1
    have e2 : prev_uptime_of s_probe2 "hub" = 95 := by
      simp only [s_probe2]
      rw [prev_uptime_eq_of_getKey _ _ _
        (by rw [getKey_status_check_failure,
                if_pos (show hubWorker.name = ("hub" : String) from rfl)])]
      rw [e1h]
      norm_num
    have e2h : prev_uptime_of s_probe2 hubWorker.name = 95 := e2
    have e3 : prev_uptime_of s_probe3 "hub" = 95.25 := by
      simp only [s_probe3]
      rw [prev_uptime_eq_of_getKey _ _ _
        (by rw [getKey_status_check_response,
                if_pos (show hubWorker.name = ("hub" : String) from rfl)])]
      rw [e2h]
      norm_num [uptime_update, classify_response]
    exact ⟨e1, e2, e3⟩

/-- C5, witness: the seed rule applied to the fresh store. -/
theorem C5_uptime_update_rule_witness :
    prev_uptime_of wInit "hub" = 100.0 :=
  C5_uptime_update_rule.2.2.1 wInit "hub" rfl

/-- C6: in every reachable monitor state every stored `uptime_percent` lies in
`[0, 100]`; moreover each of the two update maps of the estimator
(`is_up = 0` and `is_up = 1`) maps `[0, 100]` into itself, so the invariant
is preserved by every probe from the 100.0 seed. -/
theorem C6_uptime_bounds :
    (∀ s : WStore, WReach s → ∀ name r, getKey s.status name = some r →
      0 ≤ r.uptime_percent ∧ r.uptime_percent ≤ 100) ∧
    (∀ p : ℚ, 0 ≤ p → p ≤ 100 →
      (0 ≤ uptime_update p 0 ∧ uptime_update p 0 ≤ 100) ∧
      (0 ≤ uptime_update p 1 ∧ uptime_update p 1 ≤ 100)) := by
  constructor
  · intro s hs
    exact wreach_uptime_bounds hs
  · intro p hp0 hp1
    exact ⟨uptime_update_mem_Icc p 0 hp0 hp1 (Or.inl rfl),
      uptime_update_mem_Icc p 1 hp0 hp1 (Or.inr rfl)⟩

/-- C6, witness: the invariant applied to the store after one probe of `hub`,
and the update maps applied at 50. -/
theorem C6_uptime_bounds_witness :
    (0 ≤ prev_uptime_of s_probe1 "hub" ∧ prev_uptime_of s_probe1 "hub" ≤ 100) ∧
    ((0 ≤ uptime_update 50 0 ∧ uptime_update 50 0 ≤ 100) ∧
     (0 ≤ uptime_update 50 1 ∧ uptime_update 50 1 ≤ 100)) := by
  constructor
  · have hr : getKey s_probe1.status "hub" =
        some ⟨classify_response 200 250, 250, 0,
          uptime_update (prev_uptime_of wInit hubWorker.name)
            (if classify_response 200 250 = .healthy ∨
                classify_response 200 250 = .degraded then 1.0 else 0.0), ""⟩ := by
      simp only [s_probe1]
      rw [getKey_status_check_response,
        if_pos (show hubWorker.name = ("hub" : String) from rfl)]
    have hb := C6_uptime_bounds.1 s_probe1
      (WReach.step hubWorker (.response 200 250) 0 (by decide) WReach.init) "hub" _ hr
    rw [prev_uptime_eq_of_getKey _ _ _ hr]
    exact hb
  · exact C6_uptime_bounds.2 50 (by norm_num) (by norm_num)

/-- C7: from any starting uptime in `[0, 100]`, a run of consecutive `down`
classifications is monotonically non-increasing with closed form
`(19/20)^n * x` (converging toward 0), and a run of consecutive
`healthy`/`degraded` classifications is monotonically non-decreasing with
`100 - u_n = (19/20)^n * (100 - x)` (converging toward 100). -/
theorem C7_uptime_monotone_runs :
    ∀ x : ℚ, 0 ≤ x → x ≤ 100 → ∀ n : Nat,
      (uptime_after_downs x (n + 1) ≤ uptime_after_downs x n ∧
       uptime_after_downs x n = (19 / 20 : ℚ) ^ n * x) ∧
      (uptime_after_ups x n ≤ uptime_after_ups x (n + 1) ∧
       100 - uptime_after_ups x n = (19 / 20 : ℚ) ^ n * (100 - x)) := by
  intro x hx0 hx1 n
  have hd := uptime_after_downs_closed x n
  have hu := uptime_after_ups_closed x n
  have hpow : (0 : ℚ) ≤ (19 / 20 : ℚ) ^ n := by positivity
  refine ⟨⟨?_, hd⟩, ⟨?_, hu⟩⟩
  · have hnn : 0 ≤ uptime_after_downs x n := by
      rw [hd]
      exact mul_nonneg hpow hx0
    rw [uptime_after_downs, uptime_update, rat_095_eq]
    nlinarith
  · have hle : uptime_after_ups x n ≤ 100 := by
      nlinarith [mul_nonneg hpow (by linarith : (0 : ℚ) ≤ 100 - x)]
    rw [uptime_after_ups, uptime_update, rat_095_eq]
    nlinarith

/-- C7, witness: the run theorem applied at the 100.0 seed and one step. -/
theorem C7_uptime_monotone_runs_witness :
    (uptime_after_downs 100 2 ≤ uptime_after_downs 100 1 ∧
     uptime_after_downs 100 1 = (19 / 20 : ℚ) ^ 1 * 100) ∧
    (uptime_after_ups 100 1 ≤ uptime_after_ups 100 2 ∧
     100 - uptime_after_ups 100 1 = (19 / 20 : ℚ) ^ 1 * (100 - 100)) :=
  C7_uptime_monotone_runs 100 (by norm_num) (by norm_num) 1

/-- C8: both bounded sequences — per-target history and per-agent violations —
are appended by prepending the newest entry and truncating to 100, so after
every append the list holds at most 100 entries, is ordered newest-first
(new head, previous order preserved), and the entry evicted when the cap is
hit is the oldest (last) one. -/
theorem C8_bounded_sequences :
    (∀ (w : WorkerInfo) (code : Int) (rt : ℚ) (s : WStore) (now : Int),
      historyOf (check_worker_health w (.response code rt) s now) w.name =
        capAppend ⟨now, classify_response code rt, rt, code⟩ (historyOf s w.name)) ∧
    (∀ (gs : GStore) (agent policy : String) (sev : Severity)
        (details action : String) (now : Int),
      violationsOf (log_violation gs agent policy sev details action now) agent =
        capAppend ⟨agent, policy, sev, now, details, action⟩ (violationsOf gs agent)) ∧
    (∀ (α : Type) (x : α) (xs : List α),
      (capAppend x xs).length ≤ 100 ∧
      capAppend x xs = x :: xs.take 99 ∧
      (xs.length = 100 → capAppend x xs = x :: xs.dropLast)) := by
  refine ⟨historyOf_check_response, ?_, ?_⟩
  · intro gs agent policy sev details action now
    rw [violationsOf_log_violation, if_pos rfl]
  · intro α x xs
    exact ⟨length_capAppend x xs, capAppend_eq_cons x xs, capAppend_evicts_oldest x xs⟩

/-- C8, witness: FIFO eviction at the cap, applied to a 100-element list. -/
theorem C8_bounded_sequences_witness :
    capAppend (0 : Nat) (List.replicate 100 1) =
      0 :: (List.replicate 100 1).dropLast :=
  (C8_bounded_sequences.2.2 Nat 0 (List.replicate 100 1)).2.2 (by decide)

/-- C9: `POST /stop/{name}` with the emergency-stop feature disabled fails
with 403 for every name, and with the feature enabled but the name matching
no registered agent fails with 404; in both cases the returned store is
exactly the input store — no status, threat level or violation record is
mutated. -/
theorem C9_stop_error_paths :
    ∀ (agents : List AgentInfo) (name : String) (s : GStore) (now : Int),
      emergency_stop_agent false agents name s now = (.forbidden403, s) ∧
      ((∀ a ∈ agents, a.name ≠ name) →
        emergency_stop_agent true agents name s now = (.notFound404, s)) := by
  intro agents name s now
  refine ⟨emergency_stop_disabled agents name s now, fun h => ?_⟩
  apply emergency_stop_not_found
  rw [List.find?_eq_none]
  intro a ha
  simpa using h a ha

/-- C9, witness: both error paths at the unregistered name `ghost-agent` on a
fresh store. -/
theorem C9_stop_error_paths_witness :
    emergency_stop_agent false AGENTS "ghost-agent" gInit 0 = (.forbidden403, gInit) ∧
    emergency_stop_agent true AGENTS "ghost-agent" gInit 0 = (.notFound404, gInit) :=
  ⟨(C9_stop_error_paths AGENTS "ghost-agent" gInit 0).1,
   (C9_stop_error_paths AGENTS "ghost-agent" gInit 0).2 (by decide)⟩

/-- C10: the average uptime reported by `GET /metrics` is the sum of stored
`uptime_percent` over exactly the workers that have a status record, divided
by the number of configured workers — a never-checked worker contributes 0,
not its 100.0 seed — and with a non-empty worker list none of which has been
checked the reported average is 0. -/
theorem C10_metrics_average_uptime :
    ∀ (workers : List WorkerInfo) (s : WStore),
      (workers ≠ [] →
        metrics_avg_uptime workers s = recorded_uptime_sum workers s / workers.length) ∧
      (workers ≠ [] → (∀ w ∈ workers, getKey s.status w.name = none) →
        metrics_avg_uptime workers s = 0) := by
  intro workers s
  have hlen : workers ≠ [] → workers.length > 0 :=
    fun h => List.length_pos.mpr h
  constructor
  · intro h
    rw [metrics_avg_uptime, if_pos (hlen h), metrics_total_eq_recorded_sum]
  · intro h hnone
    rw [metrics_avg_uptime, if_pos (hlen h),
      metrics_total_of_unchecked s workers hnone, zero_div]

/-- C10, witness: the all-unchecked case on the configured `WORKERS` list. -/
theorem C10_metrics_average_uptime_witness :
    metrics_avg_uptime WORKERS wInit = 0 :=
  (C10_metrics_average_uptime WORKERS wInit).2 (by decide) (fun _ _ => rfl)

end BonzoAgents
